import Mathlib

/-!
Verification of the PRad elastic ep event-generator cross-section core
(`PRadEpElasGen`) against its specification.

The C++ source computes with `double`; the shallow embedding below works over
the real numbers, translating each arithmetic expression verbatim.  Helper
entities that live in the shared math library header (`cana::...`), which is
not part of the provided sources, are modelled from the specification and
carry a doc comment saying so; everything else is transcribed from
`PRadEpElasGen.cpp`.

Functions of the source that depend on the library-provided dilogarithm
(`cana::spence`) or the Gauss-Legendre node table (`cana::calc_legendre_nodes`)
take those as explicit parameters, so every theorem about them quantifies over
the external dependency.
-/

namespace PRadEpElasGen

noncomputable section

/-- Modelled from the spec: the electron mass in MeV, a constant of the shared
math library header (not under the provided sources). -/
def ele_mass : ℝ := 0.510998928

/-- Modelled from the spec: the muon mass in MeV from the shared math library
header (not under the provided sources). -/
def mu_mass : ℝ := 105.6583745

/-- Modelled from the spec: the tau-lepton mass in MeV from the shared math
library header (not under the provided sources). -/
def tau_mass : ℝ := 1776.82

/-- Modelled from the spec: the proton (target) mass in MeV from the shared
math library header (not under the provided sources). -/
def proton_mass : ℝ := 938.272046

/-- Modelled from the spec: the fine-structure constant from the shared math
library header (not under the provided sources). -/
def alpha : ℝ := 7.2973525664e-3

/-- Lepton mass `m` (source line: `const double m = cana::ele_mass`). -/
def m : ℝ := ele_mass

/-- `m2 = m*m`. -/
def m2 : ℝ := m*m

/-- Target mass `M = cana::proton_mass`. -/
def M : ℝ := proton_mass

/-- `M2 = M*M`. -/
def M2 : ℝ := M*M

/-- `twopi = 2*cana::pi`; the library constant `cana::pi` is modelled by the
real number pi. -/
def twopi : ℝ := 2*Real.pi

/-- `alp_pi = cana::alpha/cana::pi`. -/
def alp_pi : ℝ := alpha/Real.pi

/-- `pi2 = cana::pi*cana::pi`. -/
def pi2 : ℝ := Real.pi*Real.pi

/-- `alp2 = cana::alpha*cana::alpha`. -/
def alp2 : ℝ := alpha*alpha

/-- `alp3 = alp2*cana::alpha`. -/
def alp3 : ℝ := alp2*alpha

/-- Source helper: `pow2(val) = val*val`. -/
def pow2 (val : ℝ) : ℝ := val*val

/-- Modelled from the spec: `cana::clamp(val, lo, hi)` (not under the provided
sources) clamps `val` into the interval, returning `lo` when `val < lo` and
`hi` when `hi < val`. -/
def clamp (val lo hi : ℝ) : ℝ := if val < lo then lo else if hi < val then hi else val

/-- Modelled from the spec: the generic Gauss-Legendre integrator
`cana::gauss_quad(nodes, f, a, b)` (not under the provided sources) maps a
node table of (weight, abscissa) pairs onto `[a,b]` by the standard affine
transform and accumulates the weighted sum scaled by `(b-a)/2`. -/
def gauss_quad (nodes : List (ℝ × ℝ)) (f : ℝ → ℝ) (a b : ℝ) : ℝ :=
  ((b - a)/2) * (nodes.map (fun wx => wx.1 * f ((b - a)/2 * wx.2 + (b + a)/2))).sum

/-- Kinematic upper bound of the hadronic invariant `t` at fixed `(Q2, v)`. -/
def t_max (Q2 v : ℝ) : ℝ :=
  (2*M2*Q2 + v*(Q2 + v + Real.sqrt (pow2 (Q2 + v) + 4*M2*Q2)))/(2*(M2 + v))

/-- Kinematic lower bound of the hadronic invariant `t` at fixed `(Q2, v)`. -/
def t_min (Q2 v : ℝ) : ℝ :=
  (2*M2*Q2 + v*(Q2 + v - Real.sqrt (pow2 (Q2 + v) + 4*M2*Q2)))/(2*(M2 + v))

/-- Lower bound of the photonic invariant `v` at fixed `(Q2, t)`, floored at
the explicitly supplied `v`. -/
def vt_min (Q2 t v : ℝ) : ℝ :=
  max v (max ((t - Q2)*(Real.sqrt t + Real.sqrt (4*M2 + t))/2/Real.sqrt t)
           ((t - Q2)*(Real.sqrt t - Real.sqrt (4*M2 + t))/2/Real.sqrt t))

/-- Upper bound of the photonic invariant `v` at fixed `(S, Q2, t)`. -/
def vt_max (S Q2 t : ℝ) : ℝ := max (S - Q2*S/t) (S + t - Q2 - S*t/Q2)

/-- Degree-5 polynomial with the six coefficients of one of the form-factor
coefficient tables, evaluated as in the source's power-accumulation loop. -/
def poly6 (c0 c1 c2 c3 c4 c5 x : ℝ) : ℝ :=
  c0 + c1*x + c2*(x*x) + c3*(x*x*x) + c4*(x*x*x*x) + c5*(x*x*x*x*x)

/-- The dimensionless argument `tau = -Q2/4./M2/1e6` at which `GetEMFF`
evaluates its rational polynomials (the source comment reads
"convert MeV^2 to GeV^2"). -/
def ffTau (Q2 : ℝ) : ℝ := -Q2/4/M2/1e6

/-- `GetEMFF(Q2)`: electromagnetic form factors `(GE, GM)` of the proton from
the fixed degree-5 rational-polynomial tables `GEp1/GEp2` and `GMp1/GMp2`. -/
def GetEMFF (Q2 : ℝ) : ℝ × ℝ :=
  (poly6 1 2.90966 (-1.11542229) 3.866171e-2 0 0 (ffTau Q2) /
     poly6 1 14.5187212 40.88333 99.999998 4.579e-5 10.3580447 (ffTau Q2),
   2.792782 * poly6 1 (-1.43573) 1.19052066 2.5455841e-1 0 0 (ffTau Q2) /
     poly6 1 9.70703681 3.7357e-4 6.0e-8 9.9527277 12.7977739 (ffTau Q2))

/-- `GetHadStrFunc(Q2)`: hadronic structure functions `(F1, F2)` from the
form factors, with `tau = Q2/4/M2`. -/
def GetHadStrFunc (Q2 : ℝ) : ℝ × ℝ :=
  (4*(Q2/4/M2)*M2*(GetEMFF Q2).2*(GetEMFF Q2).2,
   4*M2*((GetEMFF Q2).1*(GetEMFF Q2).1 + (Q2/4/M2)*(GetEMFF Q2).2*(GetEMFF Q2).2)/(1 + Q2/4/M2))

/-- `SigmaBorn(S, Q2)`: Born-level differential cross section dsigma/dQ2. -/
def SigmaBorn (S Q2 : ℝ) : ℝ :=
  twopi*alp2/(S*S - 4*m2*M2)/Q2/Q2*
    ((GetHadStrFunc Q2).1*(Q2 - 2*m2) + (GetHadStrFunc Q2).2*(1/(2*M2)*(S*(S - Q2) - M2*Q2)))

/-- `S_phi(s, l, a, b)`: the dilogarithm-based special function of equation
(35).  The source loops run over `i = 1`, `j = 1..3`, `k = 1` with
`delta = {1, 1, -1}` at `j = 1..3` and `minus_pow(n) = (-1)^n`; the three `j`
iterations are unrolled below (`delta_j`, then `minus_pow j`).  The library
dilogarithm `cana::spence` (not under the provided sources) is the parameter
`spence`. -/
def S_phi (spence : ℝ → ℝ) (s l a b : ℝ) : ℝ :=
  let sqrt_l := Real.sqrt l
  let sqrt_b := Real.sqrt b
  let D := (s + a)*(l*a - s*b) + pow2 (l + b)/4
  let gamma_u := (Real.sqrt (b + l) - sqrt_b)/sqrt_l
  let gamma_1 := -(sqrt_b - sqrt_l)/(b - l)
  let i_sign : ℝ := -1
  let term : ℝ → ℝ → ℝ := fun delta_j j_sign =>
    let a_j := s - delta_j*sqrt_l
    let tau_j := -a*sqrt_l + delta_j*(b - l)/2 + j_sign*Real.sqrt D
    let gamma_jk := -(a_j*sqrt_b - (-1)*Real.sqrt (b*a_j*a_j + tau_j*tau_j))/tau_j
    let S_term : ℝ → ℝ := fun g =>
      spence ((gamma_1 - g)/(gamma_1 - gamma_jk)) + spence ((g + i_sign)/(gamma_jk + i_sign))
    i_sign*delta_j*(S_term gamma_u - S_term gamma_1)
  (term 1 (-1) + term 1 1 + term (-1) (-1)) * s/2/sqrt_l

/-- `CalcVphIR(S, Q2, v_min)`: the virtual-photon and infrared part of the
cross section.  Returns the five outputs
`(sig_born, sig_AMM, delta_VR, delta_vac, delta_inf)` in the order of the
source's reference parameters.  The third input `v_min` appears in the
source's parameter list but is not read by the body. -/
def CalcVphIR (spence : ℝ → ℝ) (S Q2 v_min : ℝ) : ℝ × ℝ × ℝ × ℝ × ℝ :=
  let X := S - Q2
  let Q2_m := Q2 + 2*m2
  let lambda_m := Q2*(Q2 + 4*m2)
  let sqrt_lm := Real.sqrt lambda_m
  let L_m := Real.log ((sqrt_lm + Q2)/(sqrt_lm - Q2))/sqrt_lm
  let lambda_S := S*S - 4*m2*M2
  let sqrt_lS := Real.sqrt lambda_S
  let L_S := Real.log ((S + sqrt_lS)/(S - sqrt_lS))/sqrt_lS
  let lambda_X0 := X*X - 4*m2*M2
  let sqrt_lX0 := Real.sqrt lambda_X0
  let L_X0 := Real.log ((X + sqrt_lX0)/(X - sqrt_lX0))/sqrt_lX0
  let a := (S*X - 2*M2*(Q2 - 2*m2))/2/M2
  let b := (Q2*(S*X - M2*Q2) - m2*Q2*(Q2 + 4*M2))/M2
  let v_max := 2*Q2*(lambda_S - Q2*(S + m2 + M2))/(Q2*(S + 2*m2) + Real.sqrt (lambda_S*lambda_m))
  let F01 := (GetHadStrFunc Q2).1
  let F02 := (GetHadStrFunc Q2).2
  let theta_B1 := Q2 - 2*m2
  let theta_B2 := 1/(2*M2)*(S*X - M2*Q2)
  let sig_born := twopi*alp2/lambda_S/Q2/Q2*(F01*theta_B1 + F02*theta_B2)
  let delta_VR := 2*(Q2_m*L_m - 1)*Real.log (v_max/m/M)
                  + (S*L_S + X*L_X0)/2 + S_phi spence Q2_m lambda_m a b
                  + (3/2*Q2 + 4*m2)*L_m - 2
                  - Q2_m/sqrt_lm*(lambda_m*L_m*L_m/2
                                  + 2*spence ((2*sqrt_lm)/(Q2 + sqrt_lm))
                                  - pi2/2)
  let vac_term : ℝ → ℝ := fun vm =>
    let vm2 := vm*vm
    let vsqrt_lm := Real.sqrt (Q2*(Q2 + 4*vm2))
    let vL_m := Real.log ((vsqrt_lm + Q2)/(vsqrt_lm - Q2))/vsqrt_lm
    2/3*(Q2 + 2*vm2)*vL_m - 10/9 + 8/3*vm2/Q2*(1 - 2*vm2*vL_m)
  let delta_vac := vac_term ele_mass + vac_term mu_mass + vac_term tau_mass
  let delta_inf := (Q2_m*L_m - 1)*Real.log (v_max*v_max/S/X)
  let sig_AMM := alp3*m2*L_m*(12*M2*F01 - (Q2 + 4*M2)*F02)/(2*M2*Q2*lambda_S)
  (sig_born, sig_AMM, delta_VR, delta_vac, delta_inf)

end

namespace Brem

noncomputable section

/-- `R = Q2 + v - t` in `SigmaBrem_phik`. -/
def R (v t Q2 : ℝ) : ℝ := Q2 + v - t

/-- `X = S - R - t` in `SigmaBrem_phik`. -/
def X (v t S Q2 : ℝ) : ℝ := S - R v t Q2 - t

/-- `SmX = S - X` in `SigmaBrem_phik`. -/
def SmX (v t S Q2 : ℝ) : ℝ := S - X v t S Q2

/-- `SpX = S + X` in `SigmaBrem_phik`. -/
def SpX (v t S Q2 : ℝ) : ℝ := S + X v t S Q2

/-- `tau = (t - Q2)/R` in `SigmaBrem_phik`. -/
def tau (v t Q2 : ℝ) : ℝ := (t - Q2)/R v t Q2

/-- `lambda_Y = SmX*SmX + 4*M2*Q2` in `SigmaBrem_phik`. -/
def lambda_Y (v t S Q2 : ℝ) : ℝ := SmX v t S Q2*SmX v t S Q2 + 4*PRadEpElasGen.M2*Q2

/-- `b2` of `SigmaBrem_phik` (from the ELRADGEN closed-form phi_k integral). -/
def b2 (v t S Q2 : ℝ) : ℝ :=
  (-lambda_Y v t S Q2*tau v t Q2 + SpX v t S Q2*SmX v t S Q2*tau v t Q2
     + 2*SpX v t S Q2*Q2)/2

/-- `b1` of `SigmaBrem_phik`. -/
def b1 (v t S Q2 : ℝ) : ℝ :=
  (-lambda_Y v t S Q2*tau v t Q2 - SpX v t S Q2*SmX v t S Q2*tau v t Q2
     - 2*SpX v t S Q2*Q2)/2

/-- `c1` of `SigmaBrem_phik`. -/
def c1 (v t S Q2 : ℝ) : ℝ :=
  -(4*(PRadEpElasGen.M2*tau v t Q2*tau v t Q2 - SmX v t S Q2*tau v t Q2 - Q2)*PRadEpElasGen.m2
     - PRadEpElasGen.pow2 (S*tau v t Q2 + Q2))

/-- `c2` of `SigmaBrem_phik`. -/
def c2 (v t S Q2 : ℝ) : ℝ :=
  -(4*(PRadEpElasGen.M2*tau v t Q2*tau v t Q2 - SmX v t S Q2*tau v t Q2 - Q2)*PRadEpElasGen.m2
     - PRadEpElasGen.pow2 (tau v t Q2*X v t S Q2 - Q2))

/-- `sc1 = sqrt(c1)`. -/
def sc1 (v t S Q2 : ℝ) : ℝ := Real.sqrt (c1 v t S Q2)

/-- `sc2 = sqrt(c2)`. -/
def sc2 (v t S Q2 : ℝ) : ℝ := Real.sqrt (c2 v t S Q2)

/-- `F = 1/sqrt_lY` in `SigmaBrem_phik`. -/
def F (v t S Q2 : ℝ) : ℝ := 1/Real.sqrt (lambda_Y v t S Q2)

/-- `F_d` in `SigmaBrem_phik`. -/
def F_d (v t S Q2 : ℝ) : ℝ :=
  (SpX v t S Q2*(SmX v t S Q2*tau v t Q2 + 2*Q2))/
    (sc1 v t S Q2*sc2 v t S Q2*(sc1 v t S Q2 + sc2 v t S Q2))

/-- `F_1p` in `SigmaBrem_phik`. -/
def F_1p (v t S Q2 : ℝ) : ℝ := 1/sc1 v t S Q2 + 1/sc2 v t S Q2

/-- `F_2p` in `SigmaBrem_phik`. -/
def F_2p (v t S Q2 : ℝ) : ℝ :=
  PRadEpElasGen.m2*(b2 v t S Q2/sc2 v t S Q2/c2 v t S Q2 - b1 v t S Q2/sc1 v t S Q2/c1 v t S Q2)

/-- `F_2m` in `SigmaBrem_phik`. -/
def F_2m (v t S Q2 : ℝ) : ℝ :=
  PRadEpElasGen.m2*(b2 v t S Q2/sc2 v t S Q2/c2 v t S Q2 + b1 v t S Q2/sc1 v t S Q2/c1 v t S Q2)

/-- `F_IR = F_2p - (Q2 + 2*m2)*F_d` in `SigmaBrem_phik`. -/
def F_IR (v t S Q2 : ℝ) : ℝ := F_2p v t S Q2 - (Q2 + 2*PRadEpElasGen.m2)*F_d v t S Q2

/-- `theta_11 = 4*(Q2 - 2*m2)*F_IR`. -/
def theta_11 (v t S Q2 : ℝ) : ℝ := 4*(Q2 - 2*PRadEpElasGen.m2)*F_IR v t S Q2

/-- `theta_12 = 4*tau*F_IR`. -/
def theta_12 (v t S Q2 : ℝ) : ℝ := 4*tau v t Q2*F_IR v t S Q2

/-- `theta_13 = -4*F - 2*tau*tau*F_d`. -/
def theta_13 (v t S Q2 : ℝ) : ℝ := -4*F v t S Q2 - 2*tau v t Q2*tau v t Q2*F_d v t S Q2

/-- `theta_21 = 2*(S*X - M2*Q2)*F_IR/M2`. -/
def theta_21 (v t S Q2 : ℝ) : ℝ :=
  2*(S*X v t S Q2 - PRadEpElasGen.M2*Q2)*F_IR v t S Q2/PRadEpElasGen.M2

/-- `theta_22` of `SigmaBrem_phik`. -/
def theta_22 (v t S Q2 : ℝ) : ℝ :=
  (2*SpX v t S Q2*F_2m v t S Q2 + SpX v t S Q2*SmX v t S Q2*F_1p v t S Q2
     + 2*(SmX v t S Q2 - 2*PRadEpElasGen.M2*tau v t Q2)*F_IR v t S Q2
     - tau v t Q2*SpX v t S Q2*SpX v t S Q2*F_d v t S Q2)/2/PRadEpElasGen.M2

/-- `theta_23` of `SigmaBrem_phik`. -/
def theta_23 (v t S Q2 : ℝ) : ℝ :=
  (4*PRadEpElasGen.M2*F v t S Q2
     + (4*PRadEpElasGen.m2 + 2*PRadEpElasGen.M2*tau v t Q2*tau v t Q2
          - SmX v t S Q2*tau v t Q2)*F_d v t S Q2
     - SpX v t S Q2*F_1p v t S Q2)/2/PRadEpElasGen.M2

/-- `theta_1j = theta_11/R/R + theta_12/R + theta_13`. -/
def theta_1j (v t S Q2 : ℝ) : ℝ :=
  theta_11 v t S Q2/R v t Q2/R v t Q2 + theta_12 v t S Q2/R v t Q2 + theta_13 v t S Q2

/-- `theta_2j = theta_21/R/R + theta_22/R + theta_23`. -/
def theta_2j (v t S Q2 : ℝ) : ℝ :=
  theta_21 v t S Q2/R v t Q2/R v t Q2 + theta_22 v t S Q2/R v t Q2 + theta_23 v t S Q2

end

end Brem

noncomputable section

/-- `SigmaBrem_phik(v, t, S, Q2, finite)`: the bremsstrahlung cross section
differential in `(Q2, t, v)`, integrated analytically over the photon azimuth
`phi_k`.  When `finite` is true the infrared add-back term
`alp_pi/twopi*F_IR/R/R*SigmaBorn(S, Q2)` is added to the raw result. -/
def SigmaBrem_phik (v t S Q2 : ℝ) (finite : Bool) : ℝ :=
  let res := -alp3/2/twopi/(S*S - 4*m2*M2)*
    (Brem.theta_1j v t S Q2*(GetHadStrFunc t).1 + Brem.theta_2j v t S Q2*(GetHadStrFunc t).2)/t/t
  if finite then
    res + alp_pi/twopi*Brem.F_IR v t S Q2/Brem.R v t Q2/Brem.R v t Q2*SigmaBorn S Q2
  else res

/-- `SigmaBrem_phik_v(t, v1, v2, S, Q2, finite)`: the angle-integrated
bremsstrahlung cross section integrated over `v` from `vt_min(Q2, t, v1)` to
`vt_max(S, Q2, t)` with the library Gauss-Legendre quadrature; `nodes` is the
process-wide node table parameter.  The parameter `v2` is not read. -/
def SigmaBrem_phik_v (nodes : List (ℝ × ℝ)) (t v1 v2 S Q2 : ℝ) (finite : Bool) : ℝ :=
  gauss_quad nodes (fun v => SigmaBrem_phik v t S Q2 finite) (vt_min Q2 t v1) (vt_max S Q2 t)

/-- `SigmaFh(t1, t2, v1, v2, S, Q2)`: hard-photon cross section, integrating
`SigmaBrem_phik_v` with `finite = false` over `t` from `t1` to `t2`. -/
def SigmaFh (nodes : List (ℝ × ℝ)) (t1 t2 v1 v2 S Q2 : ℝ) : ℝ :=
  gauss_quad nodes (fun t => SigmaBrem_phik_v nodes t v1 v2 S Q2 false) t1 t2

/-- `SigmaFs(t1, t2, v1, v2, S, Q2)`: finite soft-photon remainder,
integrating `SigmaBrem_phik_v` with `finite = true` over `t` from `t1` to
`t2`. -/
def SigmaFs (nodes : List (ℝ × ℝ)) (t1 t2 v1 v2 S Q2 : ℝ) : ℝ :=
  gauss_quad nodes (fun t => SigmaBrem_phik_v nodes t v1 v2 S Q2 true) t1 t2

/-- The photonic-variable limit of equation (12) computed at the top of
`GetXSdQsq`, already scaled by the 0.99 safety factor. -/
def v_limit (S Q2 : ℝ) : ℝ :=
  0.99*2*Q2*((S*S - 4*m2*M2) - Q2*(S + m2 + M2))/
    (Q2*(S + 2*m2) + Real.sqrt ((S*S - 4*m2*M2)*(Q2*(Q2 + 4*m2))))

/-- `v2 = cana::clamp(v_cut, v_cut, v_limit)` in `GetXSdQsq`. -/
def v2_of (v_cut S Q2 : ℝ) : ℝ := clamp v_cut v_cut (v_limit S Q2)

/-- `v1 = cana::clamp(v_min, v_min, v2)` in `GetXSdQsq`. -/
def v1_of (v_min v_cut S Q2 : ℝ) : ℝ := clamp v_min v_min (v2_of v_cut S Q2)

/-- `GetXSdQsq(S, Q2)`: the top-level cross-section query, returning the
triple `(sig_born, sig_nrad, sig_rad)` written to its three output reference
parameters.  The configuration scalars `v_min` (`vmin`) and `v_cut` (`vcut`)
and the external dependencies `spence` and `nodes` are explicit parameters. -/
def GetXSdQsq (spence : ℝ → ℝ) (nodes : List (ℝ × ℝ)) (vmin vcut S Q2 : ℝ) : ℝ × ℝ × ℝ :=
  let v2 := v2_of vcut S Q2
  let v1 := v1_of vmin vcut S Q2
  let c := CalcVphIR spence S Q2 v1
  let sig_Fs := SigmaFs nodes (t_min Q2 v1) (t_max Q2 v1) 0 v1 S Q2
  let sig_nrad := c.1*(1 + alp_pi*(c.2.2.1 + c.2.2.2.1 - c.2.2.2.2))*Real.exp (alp_pi*c.2.2.2.2)
                  + c.2.1 + sig_Fs
  let sig_rad := SigmaFh nodes (t_min Q2 v2) (t_max Q2 v2) v1 v2 S Q2
  (c.1, sig_nrad, sig_rad)

end

noncomputable section

/-- Shared helper: the `finite = true` output of `SigmaBrem_phik` is the
`finite = false` output plus the add-back term of the source's `if(finite)`
branch. -/
lemma phik_split (v t S Q2 : ℝ) :
    SigmaBrem_phik v t S Q2 true =
      SigmaBrem_phik v t S Q2 false
        + alp_pi/twopi*Brem.F_IR v t S Q2/Brem.R v t Q2/Brem.R v t Q2*SigmaBorn S Q2 := rfl

/-- C9: the Born cross-section value written to the `sig_born` output of
`CalcVphIR(S, Q2, v)` equals `SigmaBorn(S, Q2)` for every `(S, Q2)` (and every
dilogarithm implementation): the two code paths computing the Born cross
section are extensionally equal. -/
theorem CalcVphIR_born_equals_SigmaBorn (spence : ℝ → ℝ) (S Q2 v : ℝ) :
    (CalcVphIR spence S Q2 v).1 = SigmaBorn S Q2 := rfl

/-- C10: the five outputs of `CalcVphIR(S, Q2, v_min)` do not depend on the
third argument; the photonic cutoff `v_max` used in `delta_VR` and `delta_inf`
is recomputed internally from `(S, Q2)` alone. -/
theorem CalcVphIR_ignores_vmin (spence : ℝ → ℝ) (S Q2 v v2 : ℝ) :
    CalcVphIR spence S Q2 v = CalcVphIR spence S Q2 v2 := rfl

/-- C1: for every `(S, Q2)` (in particular every physical point above
threshold), the non-radiative output of `GetXSdQsq` equals
`sig_born*(1 + alp_pi*(delta_VR + delta_vac - delta_inf))*exp(alp_pi*delta_inf)
+ sig_AMM + SigmaFs`, with the five quantities the outputs of
`CalcVphIR(S, Q2, v1)`; only `delta_inf` is exponentiated, the other
correction terms enter linearly. -/
theorem GetXSdQsq_nrad_combination (spence : ℝ → ℝ) (nodes : List (ℝ × ℝ))
    (vmin vcut S Q2 : ℝ) :
    (GetXSdQsq spence nodes vmin vcut S Q2).2.1 =
      (CalcVphIR spence S Q2 (v1_of vmin vcut S Q2)).1
        *(1 + alp_pi*((CalcVphIR spence S Q2 (v1_of vmin vcut S Q2)).2.2.1
                       + (CalcVphIR spence S Q2 (v1_of vmin vcut S Q2)).2.2.2.1
                       - (CalcVphIR spence S Q2 (v1_of vmin vcut S Q2)).2.2.2.2))
        *Real.exp (alp_pi*(CalcVphIR spence S Q2 (v1_of vmin vcut S Q2)).2.2.2.2)
      + (CalcVphIR spence S Q2 (v1_of vmin vcut S Q2)).2.1
      + SigmaFs nodes (t_min Q2 (v1_of vmin vcut S Q2)) (t_max Q2 (v1_of vmin vcut S Q2))
          0 (v1_of vmin vcut S Q2) S Q2 := rfl

/-- C3 (amended): the radiative output of `GetXSdQsq` integrates the
non-finite angle-integrated bremsstrahlung cross section over `t` in
`[t_min(Q2, v2), t_max(Q2, v2)]` and, for each `t`, over `v` in
`[vt_min(Q2, t, v1), vt_max(S, Q2, t)]`; `v2` enters only through the outer
`t`-range, not through the inner `v`-range. -/
theorem GetXSdQsq_rad_integration_ranges (spence : ℝ → ℝ) (nodes : List (ℝ × ℝ))
    (vmin vcut S Q2 : ℝ) :
    (GetXSdQsq spence nodes vmin vcut S Q2).2.2 =
      gauss_quad nodes
        (fun t => gauss_quad nodes (fun v => SigmaBrem_phik v t S Q2 false)
          (vt_min Q2 t (v1_of vmin vcut S Q2)) (vt_max S Q2 t))
        (t_min Q2 (v2_of vcut S Q2)) (t_max Q2 (v2_of vcut S Q2)) := rfl

/-- C4 (amended): in the soft/finite contribution of `GetXSdQsq`, the outer
`t`-range is `[t_min(Q2, v1), t_max(Q2, v1)]` but the inner `v`-integral runs
over `[vt_min(Q2, t, 0), vt_max(S, Q2, t)]`: the v-floor passed to `vt_min`
is the literal `0.` of the call site, not the split point `v1`. -/
theorem GetXSdQsq_soft_integration_ranges (spence : ℝ → ℝ) (nodes : List (ℝ × ℝ))
    (vmin vcut S Q2 : ℝ) :
    (GetXSdQsq spence nodes vmin vcut S Q2).2.1 =
      (CalcVphIR spence S Q2 (v1_of vmin vcut S Q2)).1
        *(1 + alp_pi*((CalcVphIR spence S Q2 (v1_of vmin vcut S Q2)).2.2.1
                       + (CalcVphIR spence S Q2 (v1_of vmin vcut S Q2)).2.2.2.1
                       - (CalcVphIR spence S Q2 (v1_of vmin vcut S Q2)).2.2.2.2))
        *Real.exp (alp_pi*(CalcVphIR spence S Q2 (v1_of vmin vcut S Q2)).2.2.2.2)
      + (CalcVphIR spence S Q2 (v1_of vmin vcut S Q2)).2.1
      + gauss_quad nodes
          (fun t => gauss_quad nodes (fun v => SigmaBrem_phik v t S Q2 true)
            (vt_min Q2 t 0) (vt_max S Q2 t))
          (t_min Q2 (v1_of vmin vcut S Q2)) (t_max Q2 (v1_of vmin vcut S Q2)) := rfl

/-- C2 (amended): for every kinematic point, `SigmaBrem_phik` with
`finite = true` equals `SigmaBrem_phik` with `finite = false` plus the
infrared add-back term `alp_pi/twopi*F_IR/R/R*SigmaBorn(S, Q2)` — i.e.
`alpha/pi*F_IR/(2*pi*R^2)*Born`, carrying an extra `1/(2*pi)` relative to
`alpha/pi*F_IR/R^2*Born`. -/
theorem SigmaBrem_phik_finite_addback (v t S Q2 : ℝ) :
    SigmaBrem_phik v t S Q2 true =
      SigmaBrem_phik v t S Q2 false
        + alp_pi/twopi*Brem.F_IR v t S Q2/Brem.R v t Q2/Brem.R v t Q2*SigmaBorn S Q2 :=
  phik_split v t S Q2

/-- C7: at zero momentum transfer the form-factor model is exactly
normalized: `GetEMFF(0)` returns `GE = 1` and `GM = 2.792782`. -/
theorem GetEMFF_zero_normalization : GetEMFF 0 = (1, 2.792782) := by
  norm_num [GetEMFF, ffTau, poly6]

/-- C5: `SigmaBorn(S, Q2)` equals
`2*pi*alpha^2/(lambda_S*Q2^2)*(F1*theta_B1 + F2*theta_B2)` with
`theta_B1 = Q2 - 2*m2` and `theta_B2 = (S*(S-Q2) - M2*Q2)/(2*M2)`, and the
value is non-negative on the physical region, formalized as: `S` above
threshold (`lambda_S > 0`), `Q2` at least `2*m2`, and
`S*(S - Q2) ≥ M2*Q2`. -/
theorem SigmaBorn_formula_nonneg (S Q2 : ℝ)
    (hS : 0 < S*S - 4*m2*M2) (hQ : 2*m2 ≤ Q2) (hX : M2*Q2 ≤ S*(S - Q2)) :
    SigmaBorn S Q2 =
      twopi*alp2/(S*S - 4*m2*M2)/Q2/Q2*
        ((GetHadStrFunc Q2).1*(Q2 - 2*m2)
          + (GetHadStrFunc Q2).2*((S*(S - Q2) - M2*Q2)/(2*M2)))
    ∧ 0 ≤ SigmaBorn S Q2 := by
  have hm2 : (0:ℝ) < m2 := by norm_num [m2, m, ele_mass]
  have hM2 : (0:ℝ) < M2 := by norm_num [M2, M, proton_mass]
  have hQ0 : (0:ℝ) < Q2 := lt_of_lt_of_le (by linarith) hQ
  have htwopi0 : (0:ℝ) ≤ twopi := by
    simp only [twopi]; linarith [Real.pi_pos]
  have halp20 : (0:ℝ) ≤ alp2 := by norm_num [alp2, alpha]
  have hF1 : 0 ≤ (GetHadStrFunc Q2).1 := by
    simp only [GetHadStrFunc]
    have h : 4*(Q2/4/M2)*M2*(GetEMFF Q2).2*(GetEMFF Q2).2
        = 4*((Q2/4/M2)*M2)*((GetEMFF Q2).2*(GetEMFF Q2).2) := by ring
    rw [h]
    exact mul_nonneg
      (mul_nonneg (by norm_num)
        (mul_nonneg (div_nonneg (div_nonneg hQ0.le (by norm_num)) hM2.le) hM2.le))
      (mul_self_nonneg _)
  have hF2 : 0 ≤ (GetHadStrFunc Q2).2 := by
    simp only [GetHadStrFunc]
    have htau : (0:ℝ) ≤ Q2/4/M2 :=
      div_nonneg (div_nonneg hQ0.le (by norm_num)) hM2.le
    apply div_nonneg _ (by linarith : (0:ℝ) ≤ 1 + Q2/4/M2)
    have h : 4*M2*((GetEMFF Q2).1*(GetEMFF Q2).1 + Q2/4/M2*(GetEMFF Q2).2*(GetEMFF Q2).2)
        = 4*M2*((GetEMFF Q2).1*(GetEMFF Q2).1)
            + 4*M2*((Q2/4/M2)*((GetEMFF Q2).2*(GetEMFF Q2).2)) := by ring
    rw [h]
    have h4M2 : (0:ℝ) ≤ 4*M2 := by linarith
    exact add_nonneg (mul_nonneg h4M2 (mul_self_nonneg _))
      (mul_nonneg h4M2 (mul_nonneg htau (mul_self_nonneg _)))
  constructor
  · simp only [SigmaBorn]; ring
  · simp only [SigmaBorn]
    have hE : 0 ≤ (GetHadStrFunc Q2).1*(Q2 - 2*m2)
        + (GetHadStrFunc Q2).2*(1/(2*M2)*(S*(S - Q2) - M2*Q2)) := by
      refine add_nonneg (mul_nonneg hF1 (by linarith)) (mul_nonneg hF2 ?_)
      exact mul_nonneg (by positivity) (by linarith)
    exact mul_nonneg
      (div_nonneg (div_nonneg (div_nonneg (mul_nonneg htwopi0 halp20) hS.le) hQ0.le) hQ0.le) hE

/-- Witness for C5 at the concrete physical point `S = 3000000`,
`Q2 = 10000` (MeV^2). -/
theorem SigmaBorn_formula_nonneg_witness :
    (0 < 3000000*3000000 - 4*m2*M2 ∧ 2*m2 ≤ 10000
      ∧ M2*10000 ≤ 3000000*(3000000 - 10000))
    ∧ 0 ≤ SigmaBorn 3000000 10000 :=
  ⟨⟨by norm_num [m2, m, ele_mass, M2, M, proton_mass],
    by norm_num [m2, m, ele_mass],
    by norm_num [M2, M, proton_mass]⟩,
   (SigmaBorn_formula_nonneg 3000000 10000
      (by norm_num [m2, m, ele_mass, M2, M, proton_mass])
      (by norm_num [m2, m, ele_mass])
      (by norm_num [M2, M, proton_mass])).2⟩

/-- C6 (amended): `GetEMFF` rescales `Q2` from MeV^2 to GeV^2 and evaluates
its fixed degree-5 rational polynomials at `tau = -Q2/4/M2/1e6`, the
*negation* of `Q2/(4*M2)` after unit conversion, which is non-positive for
`Q2 ≥ 0`. -/
theorem GetEMFF_tau_argument (Q2 : ℝ) (h : 0 ≤ Q2) :
    ffTau Q2 = -(Q2/4/M2/1e6) ∧ ffTau Q2 ≤ 0 ∧
    GetEMFF Q2 =
      (poly6 1 2.90966 (-1.11542229) 3.866171e-2 0 0 (ffTau Q2) /
         poly6 1 14.5187212 40.88333 99.999998 4.579e-5 10.3580447 (ffTau Q2),
       2.792782 * poly6 1 (-1.43573) 1.19052066 2.5455841e-1 0 0 (ffTau Q2) /
         poly6 1 9.70703681 3.7357e-4 6.0e-8 9.9527277 12.7977739 (ffTau Q2)) := by
  have hM2 : (0:ℝ) < M2 := by norm_num [M2, M, proton_mass]
  refine ⟨by simp only [ffTau]; ring, ?_, rfl⟩
  have h1 : (0:ℝ) ≤ Q2/4/M2/1e6 :=
    div_nonneg (div_nonneg (div_nonneg h (by norm_num)) hM2.le) (by norm_num)
  have h2 : ffTau Q2 = -(Q2/4/M2/1e6) := by simp only [ffTau]; ring
  rw [h2]
  linarith

/-- Witness for C6 (amended) at `Q2 = 1000000` MeV^2. -/
theorem GetEMFF_tau_argument_witness :
    (0:ℝ) ≤ 1000000 ∧ ffTau 1000000 ≤ 0 :=
  ⟨by norm_num, (GetEMFF_tau_argument 1000000 (by norm_num)).2.1⟩

/-- Counterexample for C6 as stated: at `Q2 = 1000000` MeV^2 the polynomial
argument is strictly negative, not the non-negative `Q2/(4*M2*1e6)`. -/
theorem GetEMFF_tau_sign_cx :
    ffTau 1000000 ≠ 1000000/4/M2/1e6 ∧ ffTau 1000000 < 0 := by
  constructor <;> norm_num [ffTau, M2, M, proton_mass]

/-- C8 (amended): for every `(S, Q2)` with `v_limit > 0` and every
configuration with `v_min > 0` *and* `v_cut > 0`, the clamped values satisfy
`0 < v1 ≤ v2 ≤ v_limit`. -/
theorem GetXSdQsq_clamp_invariant (vmin vcut S Q2 : ℝ)
    (hvl : 0 < v_limit S Q2) (hmin : 0 < vmin) (hcut : 0 < vcut) :
    0 < v1_of vmin vcut S Q2 ∧ v1_of vmin vcut S Q2 ≤ v2_of vcut S Q2
      ∧ v2_of vcut S Q2 ≤ v_limit S Q2 := by
  unfold v1_of v2_of clamp
  split_ifs <;> refine ⟨by linarith, by linarith, by linarith⟩

/-- Shared helper: at the concrete physical point `S = 3*M2`, `Q2 = 1` the
photonic limit `v_limit` is at least 2000 MeV^2. -/
lemma v_limit_ge_at : (2000:ℝ) ≤ v_limit (3*M2) 1 := by
  have hm2 : (0:ℝ) < m2 := by norm_num [m2, m, ele_mass]
  have hM2 : (0:ℝ) < M2 := by norm_num [M2, M, proton_mass]
  unfold v_limit
  have hb : (0:ℝ) ≤ (3*M2)*(1 + 2*m2) := by nlinarith
  have hs : Real.sqrt (((3*M2)*(3*M2) - 4*m2*M2)*((1:ℝ)*(1 + 4*m2)))
      ≤ (3*M2)*(1 + 2*m2) := by
    rw [show (3*M2)*(1 + 2*m2)
          = Real.sqrt (((3*M2)*(1 + 2*m2))*((3*M2)*(1 + 2*m2))) from
        (Real.sqrt_mul_self hb).symm]
    apply Real.sqrt_le_sqrt
    norm_num [m2, m, ele_mass, M2, M, proton_mass]
  have hs0 : (0:ℝ) ≤ Real.sqrt (((3*M2)*(3*M2) - 4*m2*M2)*((1:ℝ)*(1 + 4*m2))) :=
    Real.sqrt_nonneg _
  have hd : (0:ℝ) < (1:ℝ)*(3*M2 + 2*m2)
      + Real.sqrt (((3*M2)*(3*M2) - 4*m2*M2)*((1:ℝ)*(1 + 4*m2))) := by nlinarith
  rw [le_div_iff₀ hd]
  calc (2000:ℝ)*((1:ℝ)*(3*M2 + 2*m2)
        + Real.sqrt (((3*M2)*(3*M2) - 4*m2*M2)*((1:ℝ)*(1 + 4*m2))))
      ≤ 2000*(1*(3*M2 + 2*m2) + (3*M2)*(1 + 2*m2)) := by linarith
    _ ≤ 0.99*2*1*(((3*M2)*(3*M2) - 4*m2*M2) - 1*(3*M2 + m2 + M2)) := by
        norm_num [m2, m, ele_mass, M2, M, proton_mass]

/-- Shared helper: `v2_of 2000` evaluates to 2000 at `S = 3*M2`, `Q2 = 1`. -/
lemma v2_of_2000_at : v2_of 2000 (3*M2) 1 = 2000 := by
  have hvl := v_limit_ge_at
  unfold v2_of clamp
  rw [if_neg (lt_irrefl _), if_neg (by linarith : ¬ v_limit (3*M2) 1 < 2000)]

/-- Shared helper: `t_min(1, 2000)` is below the rational point
`pow2 (M2/938 - 938)` used as an outer-integration abscissa. -/
lemma t_min_1_2000_le_tc : t_min 1 2000 ≤ pow2 (M2/938 - 938) := by
  have hw : (2700:ℝ) ≤ Real.sqrt (pow2 (1 + 2000) + 4*M2*1) := by
    rw [Real.le_sqrt' (by norm_num)]
    norm_num [pow2, M2, M, proton_mass]
  unfold t_min
  rw [div_le_iff₀ (by norm_num [M2, M, proton_mass] : (0:ℝ) < 2*(M2 + 2000))]
  calc 2*M2*1 + 2000*(1 + 2000 - Real.sqrt (pow2 (1 + 2000) + 4*M2*1))
      ≤ 2*M2*1 + 2000*(1 + 2000 - 2700) := by linarith
    _ ≤ pow2 (M2/938 - 938)*(2*(M2 + 2000)) := by
        norm_num [pow2, M2, M, proton_mass]

/-- Shared helper: `t_max(1, 2000)` is at least 2. -/
lemma t_max_1_2000_ge_2 : (2:ℝ) ≤ t_max 1 2000 := by
  have hw0 : (0:ℝ) ≤ Real.sqrt (pow2 (1 + 2000) + 4*M2*1) := Real.sqrt_nonneg _
  unfold t_max
  rw [le_div_iff₀ (by norm_num [M2, M, proton_mass] : (0:ℝ) < 2*(M2 + 2000))]
  calc (2:ℝ)*(2*(M2 + 2000)) ≤ 2*M2*1 + 2000*(1 + 2000 + 0) := by
        norm_num [M2, M, proton_mass]
    _ ≤ 2*M2*1 + 2000*(1 + 2000 + Real.sqrt (pow2 (1 + 2000) + 4*M2*1)) := by linarith

/-- Witness for C8 (amended) with `S = 3*M2`, `Q2 = 1`, `v_min = v_cut = 1`. -/
theorem GetXSdQsq_clamp_invariant_witness :
    (0 < v_limit (3*M2) 1 ∧ (0:ℝ) < 1)
    ∧ 0 < v1_of 1 1 (3*M2) 1 :=
  ⟨⟨lt_of_lt_of_le (by norm_num) v_limit_ge_at, by norm_num⟩,
   (GetXSdQsq_clamp_invariant 1 1 (3*M2) 1
      (lt_of_lt_of_le (by norm_num) v_limit_ge_at) (by norm_num) (by norm_num)).1⟩

/-- Counterexample for C8 as stated: at `S = 3*M2`, `Q2 = 1` (where
`v_limit > 0`) with configuration `v_min = 1 > 0` but `v_cut = -1`, the
clamped split point is `v1 = -1`, violating `0 < v1`. -/
theorem GetXSdQsq_clamp_invariant_cx :
    0 < v_limit (3*M2) 1 ∧ (0:ℝ) < 1 ∧ v1_of 1 (-1) (3*M2) 1 = -1
      ∧ ¬ 0 < v1_of 1 (-1) (3*M2) 1 := by
  have hvl := v_limit_ge_at
  have h2 : v2_of (-1) (3*M2) 1 = -1 := by
    unfold v2_of clamp
    rw [if_neg (lt_irrefl _), if_neg (by linarith : ¬ v_limit (3*M2) 1 < -1)]
  have h1 : v1_of 1 (-1) (3*M2) 1 = -1 := by
    unfold v1_of clamp
    rw [h2, if_neg (lt_irrefl _), if_pos (by norm_num : (-1:ℝ) < 1)]
  exact ⟨by linarith, by norm_num, h1, by rw [h1]; norm_num⟩

/-- Counterexample for C3 as stated: at `S = 3*M2`, `Q2 = 1` with
configuration `v_min = 1000`, `v_cut = 2000` (so `v1 = 1000`, `v2 = 2000`),
the admissible outer point `t = 2` has inner upper limit
`vt_max(S, Q2, t) ≠ v2`, and the inner integral does not change when the
`v2` argument does. -/
theorem GetXSdQsq_rad_inner_upper_limit_cx :
    v1_of 1000 2000 (3*M2) 1 = 1000 ∧ v2_of 2000 (3*M2) 1 = 2000
    ∧ t_min 1 2000 ≤ 2 ∧ (2:ℝ) ≤ t_max 1 2000
    ∧ vt_max (3*M2) 1 2 ≠ 2000
    ∧ SigmaBrem_phik_v [(1, 0)] 2 1000 2000 (3*M2) 1 false
        = SigmaBrem_phik_v [(1, 0)] 2 1000 999 (3*M2) 1 false := by
  have h2 := v2_of_2000_at
  have h1 : v1_of 1000 2000 (3*M2) 1 = 1000 := by
    unfold v1_of clamp
    rw [h2, if_neg (lt_irrefl _), if_neg (by norm_num : ¬ (2000:ℝ) < 1000)]
  refine ⟨h1, h2,
    le_trans t_min_1_2000_le_tc (by norm_num [pow2, M2, M, proton_mass]),
    t_max_1_2000_ge_2, ?_, rfl⟩
  unfold vt_max
  rw [max_eq_left (by norm_num [M2, M, proton_mass] :
    (3*M2) + 2 - 1 - (3*M2)*2/1 ≤ (3*M2) - 1*(3*M2)/2)]
  norm_num [M2, M, proton_mass]

/-- Counterexample for C4 as stated: at `S = 3*M2`, `Q2 = 1` with
configuration `v_min = v_cut = 2000` (so `v1 = 2000`), the admissible outer
point `t = pow2 (M2/938 - 938)` has
`vt_min(Q2, t, 0) ≠ vt_min(Q2, t, v1)`: the inner range the code uses
(v-floor 0) differs from the claimed one (v-floor `v1`). -/
theorem GetXSdQsq_soft_vfloor_cx :
    v1_of 2000 2000 (3*M2) 1 = 2000
    ∧ t_min 1 2000 ≤ pow2 (M2/938 - 938) ∧ pow2 (M2/938 - 938) ≤ t_max 1 2000
    ∧ vt_min 1 (pow2 (M2/938 - 938)) 0 ≠ vt_min 1 (pow2 (M2/938 - 938)) 2000 := by
  have h2 := v2_of_2000_at
  have h1 : v1_of 2000 2000 (3*M2) 1 = 2000 := by
    unfold v1_of clamp
    rw [h2, if_neg (lt_irrefl _), if_neg (lt_irrefl _)]
  have hp : (0:ℝ) < M2/938 - 938 := by norm_num [M2, M, proton_mass]
  have hsp : Real.sqrt (pow2 (M2/938 - 938)) = M2/938 - 938 := by
    simp only [pow2]
    exact Real.sqrt_mul_self hp.le
  have hsq : Real.sqrt (4*M2 + pow2 (M2/938 - 938)) = M2/938 + 938 := by
    rw [show 4*M2 + pow2 (M2/938 - 938) = (M2/938 + 938)*(M2/938 + 938) from by
      norm_num [pow2, M2, M, proton_mass]]
    exact Real.sqrt_mul_self (by norm_num [M2, M, proton_mass])
  refine ⟨h1, t_min_1_2000_le_tc,
    le_trans (by norm_num [pow2, M2, M, proton_mass] :
      pow2 (M2/938 - 938) ≤ (2:ℝ)) t_max_1_2000_ge_2, ?_⟩
  unfold vt_min
  rw [hsp, hsq]
  simp only [max_def]
  split_ifs <;> norm_num [pow2, M2, M, proton_mass] at *

/-- Shared helper: `R` at the C2 counterexample point. -/
lemma cx2_R : Brem.R (M2 - 20000) (M2/2) 10000 = M2/2 - 10000 := by
  unfold Brem.R; ring

/-- Shared helper: `R > 0` at the C2 counterexample point. -/
lemma cx2_R_pos : 0 < Brem.R (M2 - 20000) (M2/2) 10000 := by
  rw [cx2_R]; norm_num [M2, M, proton_mass]

/-- Shared helper: `tau = 1` at the C2 counterexample point (it sits on the
`t = t_max` boundary of the physical region). -/
lemma cx2_tau : Brem.tau (M2 - 20000) (M2/2) 10000 = 1 := by
  unfold Brem.tau Brem.R
  norm_num [M2, M, proton_mass]

/-- Shared helper: `X` at the C2 counterexample point. -/
lemma cx2_X : Brem.X (M2 - 20000) (M2/2) (2*M2) 10000 = M2 + 10000 := by
  unfold Brem.X Brem.R; ring

/-- Shared helper: `SmX` at the C2 counterexample point. -/
lemma cx2_SmX : Brem.SmX (M2 - 20000) (M2/2) (2*M2) 10000 = M2 - 10000 := by
  unfold Brem.SmX Brem.X Brem.R; ring

/-- Shared helper: `SpX` at the C2 counterexample point. -/
lemma cx2_SpX : Brem.SpX (M2 - 20000) (M2/2) (2*M2) 10000 = 3*M2 + 10000 := by
  unfold Brem.SpX Brem.X Brem.R; ring

/-- Shared helper: `lambda_Y` at the C2 counterexample point is a perfect
square. -/
lemma cx2_lamY : Brem.lambda_Y (M2 - 20000) (M2/2) (2*M2) 10000
    = (M2 + 10000)*(M2 + 10000) := by
  unfold Brem.lambda_Y
  rw [cx2_SmX]; ring

/-- Shared helper: `b2` at the C2 counterexample point. -/
lemma cx2_b2 : Brem.b2 (M2 - 20000) (M2/2) (2*M2) 10000 = M2*(M2 + 10000) := by
  unfold Brem.b2
  rw [cx2_lamY, cx2_tau, cx2_SpX, cx2_SmX]; ring

/-- Shared helper: `b1` at the C2 counterexample point. -/
lemma cx2_b1 : Brem.b1 (M2 - 20000) (M2/2) (2*M2) 10000
    = -((M2 + 10000)*(2*M2 + 10000)) := by
  unfold Brem.b1
  rw [cx2_lamY, cx2_tau, cx2_SpX, cx2_SmX]; ring

/-- Shared helper: `c1` at the C2 counterexample point is a perfect square
(the `m2` discriminant term vanishes on the boundary). -/
lemma cx2_c1 : Brem.c1 (M2 - 20000) (M2/2) (2*M2) 10000 = pow2 (2*M2 + 10000) := by
  unfold Brem.c1
  rw [cx2_tau, cx2_SmX]
  simp only [pow2]; ring

/-- Shared helper: `c2` at the C2 counterexample point is a perfect square. -/
lemma cx2_c2 : Brem.c2 (M2 - 20000) (M2/2) (2*M2) 10000 = pow2 M2 := by
  unfold Brem.c2
  rw [cx2_tau, cx2_SmX, cx2_X]
  simp only [pow2]; ring

/-- Shared helper: `sc1` at the C2 counterexample point. -/
lemma cx2_sc1 : Brem.sc1 (M2 - 20000) (M2/2) (2*M2) 10000 = 2*M2 + 10000 := by
  unfold Brem.sc1
  rw [cx2_c1]
  simp only [pow2]
  exact Real.sqrt_mul_self (by norm_num [M2, M, proton_mass])

/-- Shared helper: `sc2` at the C2 counterexample point. -/
lemma cx2_sc2 : Brem.sc2 (M2 - 20000) (M2/2) (2*M2) 10000 = M2 := by
  unfold Brem.sc2
  rw [cx2_c2]
  simp only [pow2]
  exact Real.sqrt_mul_self (by norm_num [M2, M, proton_mass])

/-- Shared helper: the angle-integrated infrared factor `F_IR` is strictly
negative at the C2 counterexample point. -/
lemma cx2_FIR_neg : Brem.F_IR (M2 - 20000) (M2/2) (2*M2) 10000 < 0 := by
  unfold Brem.F_IR Brem.F_2p Brem.F_d
  rw [cx2_sc1, cx2_sc2, cx2_c1, cx2_c2, cx2_b1, cx2_b2, cx2_SpX, cx2_SmX, cx2_tau]
  norm_num [pow2, m2, m, ele_mass, M2, M, proton_mass]

/-- Shared helper: the Born cross section is strictly positive at
`S = 2*M2`, `Q2 = 10000`. -/
lemma cx2_Born_pos : 0 < SigmaBorn (2*M2) 10000 := by
  unfold SigmaBorn
  have htwopi : (0:ℝ) < twopi := by simp only [twopi]; linarith [Real.pi_pos]
  have halp2 : (0:ℝ) < alp2 := by norm_num [alp2, alpha]
  have hlam : (0:ℝ) < (2*M2)*(2*M2) - 4*m2*M2 := by
    norm_num [m2, m, ele_mass, M2, M, proton_mass]
  have hE : 0 < (GetHadStrFunc 10000).1*(10000 - 2*m2)
      + (GetHadStrFunc 10000).2*(1/(2*M2)*((2*M2)*((2*M2) - 10000) - M2*10000)) := by
    norm_num [GetHadStrFunc, GetEMFF, ffTau, poly6, m2, m, ele_mass, M2, M, proton_mass]
  exact mul_pos
    (div_pos (div_pos (div_pos (mul_pos htwopi halp2) hlam) (by norm_num)) (by norm_num)) hE

/-- Shared helper: the square root appearing in the `t`-bounds at
`(Q2, v) = (10000, M2 - 20000)` evaluates exactly. -/
lemma cx2_sqrtY : Real.sqrt (pow2 (10000 + (M2 - 20000)) + 4*M2*10000)
    = M2 + 10000 := by
  rw [show pow2 (10000 + (M2 - 20000)) + 4*M2*10000 = (M2 + 10000)*(M2 + 10000) from by
    simp only [pow2]; ring]
  exact Real.sqrt_mul_self (by norm_num [M2, M, proton_mass])

/-- Shared helper: `t = M2/2` is within the physical `t`-range at
`(Q2, v) = (10000, M2 - 20000)` (it is exactly `t_max`). -/
lemma cx2_t_range : t_min 10000 (M2 - 20000) ≤ M2/2 ∧ M2/2 ≤ t_max 10000 (M2 - 20000) := by
  constructor
  · unfold t_min
    rw [cx2_sqrtY, div_le_iff₀ (by norm_num [M2, M, proton_mass] :
      (0:ℝ) < 2*(M2 + (M2 - 20000)))]
    norm_num [M2, M, proton_mass]
  · unfold t_max
    rw [cx2_sqrtY, le_div_iff₀ (by norm_num [M2, M, proton_mass] :
      (0:ℝ) < 2*(M2 + (M2 - 20000)))]
    norm_num [M2, M, proton_mass]

/-- Counterexample for C2 as stated: at the physical point
`v = M2 - 20000`, `t = M2/2`, `S = 2*M2`, `Q2 = 10000` the difference between
the finite-mode and non-finite-mode outputs of `SigmaBrem_phik` is *not*
`alp_pi*F_IR/R^2*SigmaBorn(S, Q2)` (the code adds that term divided by an
extra `twopi`). -/
theorem SigmaBrem_phik_finite_addback_cx :
    (0 < M2 - 20000 ∧ 0 < (2*M2)*(2*M2) - 4*m2*M2
      ∧ t_min 10000 (M2 - 20000) ≤ M2/2 ∧ M2/2 ≤ t_max 10000 (M2 - 20000)
      ∧ Brem.R (M2 - 20000) (M2/2) 10000 ≠ 0)
    ∧ SigmaBrem_phik (M2 - 20000) (M2/2) (2*M2) 10000 true
        - SigmaBrem_phik (M2 - 20000) (M2/2) (2*M2) 10000 false
      ≠ alp_pi*Brem.F_IR (M2 - 20000) (M2/2) (2*M2) 10000
          /pow2 (Brem.R (M2 - 20000) (M2/2) 10000)*SigmaBorn (2*M2) 10000 := by
  refine ⟨⟨by norm_num [M2, M, proton_mass],
    by norm_num [m2, m, ele_mass, M2, M, proton_mass],
    cx2_t_range.1, cx2_t_range.2, ne_of_gt cx2_R_pos⟩, ?_⟩
  rw [phik_split, add_sub_cancel_left]
  have hC : Brem.F_IR (M2 - 20000) (M2/2) (2*M2) 10000
      /Brem.R (M2 - 20000) (M2/2) 10000/Brem.R (M2 - 20000) (M2/2) 10000
      *SigmaBorn (2*M2) 10000 < 0 := by
    apply mul_neg_of_neg_of_pos _ cx2_Born_pos
    exact div_neg_of_neg_of_pos (div_neg_of_neg_of_pos cx2_FIR_neg cx2_R_pos) cx2_R_pos
  have halp : 0 < alp_pi := by
    simp only [alp_pi]; exact div_pos (by norm_num [alpha]) Real.pi_pos
  have htw : (1:ℝ) < twopi := by simp only [twopi]; linarith [Real.pi_gt_three]
  have h1 : alp_pi/twopi < alp_pi := div_lt_self halp htw
  have h2 := mul_lt_mul_of_neg_right h1 hC
  have hA : alp_pi/twopi*Brem.F_IR (M2 - 20000) (M2/2) (2*M2) 10000
      /Brem.R (M2 - 20000) (M2/2) 10000/Brem.R (M2 - 20000) (M2/2) 10000
      *SigmaBorn (2*M2) 10000
      = (alp_pi/twopi)*(Brem.F_IR (M2 - 20000) (M2/2) (2*M2) 10000
          /Brem.R (M2 - 20000) (M2/2) 10000/Brem.R (M2 - 20000) (M2/2) 10000
          *SigmaBorn (2*M2) 10000) := by ring
  have hB : alp_pi*Brem.F_IR (M2 - 20000) (M2/2) (2*M2) 10000
      /pow2 (Brem.R (M2 - 20000) (M2/2) 10000)*SigmaBorn (2*M2) 10000
      = alp_pi*(Brem.F_IR (M2 - 20000) (M2/2) (2*M2) 10000
          /Brem.R (M2 - 20000) (M2/2) 10000/Brem.R (M2 - 20000) (M2/2) 10000
          *SigmaBorn (2*M2) 10000) := by
    simp only [pow2]; ring
  rw [hA, hB]
  exact ne_of_gt h2

end

end PRadEpElasGen
